import Mathlib

/-!
Verification of the OSPRay volume abstraction layer (src/ospray/volume/Volume.h).

The repository slice under verification ships only the abstract interface
header `Volume.h`: the class `ospray::Volume` with its factory entry point
`createInstance`, the lifecycle operations `commit`, `setRegion`,
`computeSamples`, `updateEditableParameters`, the one-time completion step
`finish`, the data-parallel `DataParallelPiece` record, and the registration
macro `OSP_REGISTER_VOLUME`.  The method bodies live elsewhere in the
repository; where a claim depends on behaviour the header only declares, the
definitions below are modelled from the specification's words and say so in
their doc comments.

World coordinates are modelled at voxel-center resolution (integer triples):
the specification leaves the interpolation kernel out of scope and its
concrete scenario samples exactly at voxel centers, so sampling is modelled
as the nearest-voxel lookup at those points.  Scalar voxel values are
modelled as integers (the spec fixes no arithmetic on them; the round-trip
and sentinel claims only compare values for equality).
-/

/-- Integer 3-vector, modelling `vec3i` (voxel indices, counts and the
voxel-center world coordinates used by the spec's concrete scenario). -/
structure Vec3i where
  x : Int
  y : Int
  z : Int
deriving DecidableEq

/-- Componentwise difference of two `Vec3i`, used to address into a
`setRegion` source buffer. -/
def Vec3i.sub (a b : Vec3i) : Vec3i :=
  ⟨a.x - b.x, a.y - b.y, a.z - b.z⟩

/-- Commit state of a volume, from the spec's data model: "a commit state
(uncommitted / first-committed-and-finished / recommitted)". -/
inductive CommitState where
  | uncommitted
  | firstCommitted
  | recommitted
deriving DecidableEq

/-- Modelled from the spec: the abstract state of one `ospray::Volume`
instance.  `Volume.h` declares the interface only; the spec's data model
gives the attributes: "a type identifier (string), a commit state, a set of
editable parameters, and backend-specific voxel storage".  `finishCount`
counts executions of the one-time completion step `finish`, and
`editableUpdates` counts applications of `updateEditableParameters`, so the
lifecycle claims are observable. -/
structure VolumeInstance where
  typeName : String
  dims : Vec3i
  state : CommitState
  finishCount : Nat
  editableUpdates : Nat
  voxels : Vec3i → Int

/-- Handle naming a (process, object id) pair, modelling `ObjectHandle` as
described at the `owner` field of `DataParallelPiece`: "handle to the owning
process:objectID". -/
structure ObjectHandle where
  processID : Nat
  objectID : Nat
deriving DecidableEq

/-- World-space bounding box of a piece, modelling `box3f` at voxel-center
resolution (lower and upper corner). -/
structure Box3i where
  lower : Vec3i
  upper : Vec3i
deriving DecidableEq

/-- The `Volume::DataParallelPiece` record from `Volume.h`: world bounds
(including ghost regions), a non-owning back-reference to the parent volume
(modelled as an observer index, per the spec's design note), the actual
local data (`NULL if not on this node`, hence `Option`), and the owner
handles ("a volume block may be stored on multiple nodes, and thus may have
multiple owners"). -/
structure DataParallelPiece where
  worldBounds : Box3i
  parent : Nat
  actualData : Option VolumeInstance
  owner : List ObjectHandle

/-- A registered constructor: the spec's registration surface is
`register(typeName: string, constructor: () -> Volume-instance)`. -/
abbrev Ctor : Type := Unit → VolumeInstance

/-- The process-wide type registry: ordered key/constructor pairs. -/
abbrev Registry : Type := List (String × Ctor)

/-- Modelled from the spec: the registration performed by
`OSP_REGISTER_VOLUME` (body not in the verified slice).  "Registering the
same key twice replaces the prior mapping (last registration wins)" and
"keys are unique within the process": the new pair is put in front and any
prior pair under the same key is dropped. -/
def registerVolume (reg : Registry) (name : String) (ctor : Ctor) : Registry :=
  (name, ctor) :: reg.filter (fun e => e.1 != name)

/-- Registry lookup by type name. -/
def lookupCtor (reg : Registry) (name : String) : Option Ctor :=
  (reg.find? (fun e => e.1 == name)).map Prod.snd

/-- Factory failure taxonomy entry: a *Lookup* error carries the unknown
type name and is "always reported to caller, never fatal to the process". -/
inductive FactoryError where
  | lookup (name : String)
deriving DecidableEq

/-- Modelled from the spec: `Volume::createInstance` (declared in `Volume.h`,
body not in the verified slice).  "`createInstance(typeName)` looks up
`typeName` in the registry and returns a newly constructed,
ownership-transferred Volume of that concrete type, or fails with a *Lookup*
error (unknown type name) if no registration matches." -/
def createInstance (reg : Registry) (ty : String) : Except FactoryError VolumeInstance :=
  match lookupCtor reg ty with
  | some c => Except.ok (c ())
  | none => Except.error (FactoryError.lookup ty)

/-- Modelled from the spec: `Volume::finish` (declared in `Volume.h`, body
not in the verified slice): "Complete volume initialization (only on first
commit)".  Its observable side effect is counted. -/
def finish (v : VolumeInstance) : VolumeInstance :=
  { v with finishCount := v.finishCount + 1 }

/-- Modelled from the spec: `Volume::updateEditableParameters` (declared in
`Volume.h`, body not in the verified slice): "Update select editable
parameters (allowed after the volume has been initially committed)",
"without re-running full initialization".  Its application is counted. -/
def updateEditableParameters (v : VolumeInstance) : VolumeInstance :=
  { v with editableUpdates := v.editableUpdates + 1 }

/-- Modelled from the spec: `Volume::commit` (declared in `Volume.h`, body
not in the verified slice).  "On the *first* call for an instance, it must
perform one-time setup ... via an overridable completion step; on
subsequent calls it must apply only the subset of changes permitted
post-initialization", with the state machine
`Uninitialized → Committed(first) → Committed(steady-state)`. -/
def commit (v : VolumeInstance) : VolumeInstance :=
  match v.state with
  | CommitState.uncommitted => { finish v with state := CommitState.firstCommitted }
  | _ => { updateEditableParameters v with state := CommitState.recommitted }

/-- Iterated `commit`: `commitN n v` applies `commit` to `v` `n` times. -/
def commitN : Nat → VolumeInstance → VolumeInstance
  | 0, v => v
  | n + 1, v => commitN n (commit v)

/-- The precondition of `setRegion` from the spec: "`index + count` must lie
within the volume's declared extents" (with nonnegative offset and count). -/
def withinExtents (dims index count : Vec3i) : Bool :=
  decide (0 ≤ index.x) && decide (0 ≤ index.y) && decide (0 ≤ index.z) &&
  decide (0 ≤ count.x) && decide (0 ≤ count.y) && decide (0 ≤ count.z) &&
  decide (index.x + count.x ≤ dims.x) &&
  decide (index.y + count.y ≤ dims.y) &&
  decide (index.z + count.z ≤ dims.z)

/-- Membership of a voxel coordinate in the half-open region written by a
`setRegion(source, index, count)` call. -/
def regionContains (index count p : Vec3i) : Bool :=
  decide (index.x ≤ p.x) && decide (p.x < index.x + count.x) &&
  decide (index.y ≤ p.y) && decide (p.y < index.y + count.y) &&
  decide (index.z ≤ p.z) && decide (p.z < index.z + count.z)

/-- Modelled from the spec: `Volume::setRegion` (pure virtual in `Volume.h`;
no body is in the verified slice).  "Copies `count` voxels of caller-owned
memory `source` into the volume at voxel-space offset `index`", "Returns a
success/failure indicator rather than throwing" (the header: "non-zero
return value indicates success"); an out-of-extents write "is a usage error
the implementation may reject" and "must never silently corrupt state", so
the rejecting path reports failure and leaves the volume unchanged. -/
def setRegion (v : VolumeInstance) (source : Vec3i → Int) (index count : Vec3i) :
    Int × VolumeInstance :=
  if withinExtents v.dims index count then
    (1, { v with voxels := fun p =>
            if regionContains index count p then source (Vec3i.sub p index)
            else v.voxels p })
  else
    (0, v)

/-- The documented out-of-bounds sentinel: the spec's scenario names "the
pre-fill default (e.g., zero)" and requires "a value the caller interprets
as no contribution". -/
def sentinel : Int := 0

/-- Whether a voxel-center world coordinate lies inside the volume's
declared extents. -/
def inBounds (dims p : Vec3i) : Bool :=
  decide (0 ≤ p.x) && decide (p.x < dims.x) &&
  decide (0 ≤ p.y) && decide (p.y < dims.y) &&
  decide (0 ≤ p.z) && decide (p.z < dims.z)

/-- Modelled from the spec: the per-point sample of `Volume::computeSamples`
(declared in `Volume.h`, body not in the verified slice): the interpolated
scalar at an in-bounds point (at voxel centers, the stored voxel value), and
the well-defined `sentinel` at an out-of-bounds point. -/
def sampleAt (v : VolumeInstance) (p : Vec3i) : Int :=
  if inBounds v.dims p then v.voxels p else sentinel

/-- Modelled from the spec: `Volume::computeSamples` over a batch: "for each
of `count` world-space points, writes the interpolated scalar value into the
corresponding output slot". -/
def computeSamples (v : VolumeInstance) (points : List Vec3i) : List Int :=
  points.map (sampleAt v)

/-- Modelled from the spec: `Volume::computeSamples` with the instance state
threaded explicitly through the batch loop, to make the claim that sampling
is "read-only with respect to instance state (no implicit lazy mutation)"
statable: each iteration reads a sample from the current state and passes
the state on. -/
def computeSamplesSt (v : VolumeInstance) (points : List Vec3i) :
    List Int × VolumeInstance :=
  match points with
  | [] => ([], v)
  | p :: ps =>
    let r := sampleAt v p
    let rest := computeSamplesSt v ps
    (r :: rest.1, rest.2)

/-- Result of resolving a sample request against one piece: either the local
resident data, or the owner handles to fetch from. -/
inductive PieceQueryResult where
  | localData (v : VolumeInstance)
  | remoteFetch (owners : List ObjectHandle)

/-- Failure taxonomy entry for the piece decomposition model: an
*Inconsistency* is "a piece with no local data and no owners — fatal, since
sampling cannot proceed correctly". -/
inductive PieceError where
  | inconsistency
deriving DecidableEq

/-- Modelled from the spec: the query-time resolution of a sample request
against a `DataParallelPiece` (consumed by the external ray integrator; no
body is in the verified slice): "given a piece, report whether local data is
resident, and if not, return its owner set so the caller can issue a remote
fetch"; "if a piece has empty local data and empty owners, treat it as
fatal". -/
def queryPiece (p : DataParallelPiece) : Except PieceError PieceQueryResult :=
  match p.actualData with
  | some v => Except.ok (PieceQueryResult.localData v)
  | none =>
    match p.owner with
    | [] => Except.error PieceError.inconsistency
    | o :: os => Except.ok (PieceQueryResult.remoteFetch (o :: os))

/-- The spec's invariant on pieces: "a piece with no local data present
*must* have a non-empty owner set". -/
def pieceWellFormed (p : DataParallelPiece) : Prop :=
  p.actualData = none → p.owner ≠ []

/-- A concrete volume subtype, as `Volume.h` constrains it: `setRegion` is
pure virtual (`= 0`), so a subtype must supply it and the abstract base
alone can never be instantiated; `commit`, `computeSamples`,
`updateEditableParameters`, `isDataDistributed`, `toString` and `finish` are
virtual with base-class bodies, so a subtype may override them (`some`) or
inherit the base default (`none`). -/
structure VolumeSubclass where
  setRegionImpl : VolumeInstance → (Vec3i → Int) → Vec3i → Vec3i → Int × VolumeInstance
  commitImpl : Option (VolumeInstance → VolumeInstance)
  computeSamplesImpl : Option (VolumeInstance → List Vec3i → List Int)
  updateEditableParametersImpl : Option (VolumeInstance → VolumeInstance)
  isDataDistributedImpl : Option (VolumeInstance → Bool)
  toStringImpl : Option (VolumeInstance → String)
  finishImpl : Option (VolumeInstance → VolumeInstance)

/-- Modelled from the spec: the base-class body of `Volume::isDataDistributed`
(declared in `Volume.h`, body not in the verified slice): "reports whether
this instance participates in the Piece Decomposition Model; default is
false". -/
def baseIsDataDistributed (_v : VolumeInstance) : Bool :=
  false

/-- Modelled from the spec: the base-class body of `Volume::toString`
("A string description of this class"): it reports the instance's type
identifier. -/
def baseToString (v : VolumeInstance) : String :=
  v.typeName

/-- Virtual dispatch of `setRegion`: there is no base body to fall back to,
so dispatch always reaches the subtype's implementation. -/
def dispatchSetRegion (s : VolumeSubclass) :
    VolumeInstance → (Vec3i → Int) → Vec3i → Vec3i → Int × VolumeInstance :=
  s.setRegionImpl

/-- Virtual dispatch of `commit`: the subtype's override if present,
otherwise the base body. -/
def dispatchCommit (s : VolumeSubclass) : VolumeInstance → VolumeInstance :=
  s.commitImpl.getD commit

/-- Virtual dispatch of `computeSamples`: the subtype's override if present,
otherwise the base body. -/
def dispatchComputeSamples (s : VolumeSubclass) :
    VolumeInstance → List Vec3i → List Int :=
  s.computeSamplesImpl.getD computeSamples

/-- Virtual dispatch of `updateEditableParameters`: the subtype's override
if present, otherwise the base body. -/
def dispatchUpdateEditableParameters (s : VolumeSubclass) :
    VolumeInstance → VolumeInstance :=
  s.updateEditableParametersImpl.getD updateEditableParameters

/-- Virtual dispatch of `isDataDistributed`: the subtype's override if
present, otherwise the base body. -/
def dispatchIsDataDistributed (s : VolumeSubclass) : VolumeInstance → Bool :=
  s.isDataDistributedImpl.getD baseIsDataDistributed

/-- Virtual dispatch of `toString`: the subtype's override if present,
otherwise the base body. -/
def dispatchToString (s : VolumeSubclass) : VolumeInstance → String :=
  s.toStringImpl.getD baseToString

/-- Virtual dispatch of the protected completion step `finish`: the
subtype's override if present, otherwise the base body. -/
def dispatchFinish (s : VolumeSubclass) : VolumeInstance → VolumeInstance :=
  s.finishImpl.getD finish

/-- The spec's well-population discipline for the registry: every registered
constructor builds an instance that reports the type name it was registered
under (the discipline `OSP_REGISTER_VOLUME(InternalClass, external_name)`
establishes for each entry). -/
def reportsRegisteredTypes (reg : Registry) : Prop :=
  ∀ e ∈ reg, (e.2 ()).typeName = e.1

/-- A fresh, minimally parameterized 4×4×4 test volume of the given type
(the spec's "testgrid" scenario), zero-filled. -/
def demoVol (ty : String) : VolumeInstance :=
  { typeName := ty
    dims := ⟨4, 4, 4⟩
    state := CommitState.uncommitted
    finishCount := 0
    editableUpdates := 0
    voxels := fun _ => 0 }

/-- A constructor for the demo volume type. -/
def demoCtor : Ctor := fun _ => demoVol "testgrid"

/-- A one-entry demo registry. -/
def demoReg : Registry := registerVolume [] "testgrid" demoCtor

theorem commit_preserves_storage (v : VolumeInstance) :
    (commit v).voxels = v.voxels ∧ (commit v).dims = v.dims := by
  obtain ⟨t, d, st, fc, eu, vox⟩ := v
  cases st <;> exact ⟨rfl, rfl⟩

theorem commit_steady (v : VolumeInstance) (h : v.state ≠ CommitState.uncommitted) :
    commit v = { updateEditableParameters v with state := CommitState.recommitted } := by
  obtain ⟨t, d, st, fc, eu, vox⟩ := v
  cases st
  · exact absurd rfl h
  · rfl
  · rfl

theorem commitN_steady (n : Nat) (w : VolumeInstance)
    (h : w.state ≠ CommitState.uncommitted) :
    (commitN n w).finishCount = w.finishCount ∧
    (commitN n w).editableUpdates = w.editableUpdates + n ∧
    (commitN n w).state ≠ CommitState.uncommitted := by
  induction n generalizing w with
  | zero => exact ⟨rfl, rfl, h⟩
  | succ n ih =>
    have hc := commit_steady w h
    have hstep := ih (commit w) (by rw [hc]; intro hcon; exact nomatch hcon)
    simp only [commitN]
    refine ⟨?_, ?_, hstep.2.2⟩
    · rw [hstep.1, hc]
      rfl
    · rw [hstep.2.1, hc]
      simp [updateEditableParameters]
      omega

/-- C1: for every registered type name T, `createInstance(T)` returns a
newly constructed instance of the type registered under T, whose reported
type matches T; for every unregistered name it returns (to the caller, as an
`Except` value rather than a process abort) a Lookup failure naming the
unknown type. -/
theorem createInstance_type_or_lookup_failure (reg : Registry)
    (hrep : reportsRegisteredTypes reg) (T : String) :
    (∀ c, lookupCtor reg T = some c →
      createInstance reg T = Except.ok (c ()) ∧ (c ()).typeName = T) ∧
    (lookupCtor reg T = none →
      createInstance reg T = Except.error (FactoryError.lookup T)) := by
  constructor
  · intro c hc
    constructor
    · unfold createInstance
      rw [hc]
    · unfold lookupCtor at hc
      rcases Option.map_eq_some'.mp hc with ⟨e, hfind, hsnd⟩
      have hmem : e ∈ reg := List.mem_of_find?_eq_some hfind
      have hpred := List.find?_some hfind
      have hname : e.1 = T := by simpa using hpred
      rw [← hsnd]
      exact (hrep e hmem).trans hname
  · intro hnone
    unfold createInstance
    rw [hnone]

theorem createInstance_type_or_lookup_failure_witness :
    createInstance demoReg "testgrid" = Except.ok (demoCtor ()) ∧
    (demoCtor ()).typeName = "testgrid" ∧
    createInstance demoReg "water" = Except.error (FactoryError.lookup "water") := by
  have hrep : reportsRegisteredTypes demoReg := by
    intro e he
    have : e = ("testgrid", demoCtor) := by simpa [demoReg, registerVolume] using he
    subst this
    rfl
  have h1 := (createInstance_type_or_lookup_failure demoReg hrep "testgrid").1 demoCtor rfl
  have h2 := (createInstance_type_or_lookup_failure demoReg hrep "water").2 rfl
  exact ⟨h1.1, h1.2, h2⟩

/-- C2: starting from a fresh instance, the one-time completion step
(`finish`) runs exactly once, on the first `commit`; each of the `n` later
commits leaves the finish count at one and applies exactly one
post-initialization editable-parameter update. -/
theorem commit_runs_finish_exactly_once (v : VolumeInstance) (n : Nat)
    (h1 : v.state = CommitState.uncommitted) (h2 : v.finishCount = 0) :
    (commit v).finishCount = 1 ∧
    (commitN n (commit v)).finishCount = 1 ∧
    (commitN n (commit v)).editableUpdates = (commit v).editableUpdates + n := by
  obtain ⟨t, d, st, fc, eu, vox⟩ := v
  cases st
  case uncommitted =>
    simp only at h2
    subst h2
    have hsteady := commitN_steady n (commit ⟨t, d, CommitState.uncommitted, 0, eu, vox⟩)
      (by intro hcon; exact nomatch hcon)
    exact ⟨rfl, hsteady.1, hsteady.2.1⟩
  case firstCommitted => exact nomatch h1
  case recommitted => exact nomatch h1

theorem commit_runs_finish_exactly_once_witness :
    (commit (demoVol "testgrid")).finishCount = 1 ∧
    (commitN 2 (commit (demoVol "testgrid"))).finishCount = 1 ∧
    (commitN 2 (commit (demoVol "testgrid"))).editableUpdates
      = (commit (demoVol "testgrid")).editableUpdates + 2 :=
  commit_runs_finish_exactly_once (demoVol "testgrid") 2 rfl rfl

/-- C7: registering a second constructor under an already-registered type
name replaces the prior mapping, and `createInstance` issued after the
second registration constructs with the most recent constructor. -/
theorem second_registration_wins (reg : Registry) (name : String) (f g : Ctor) :
    createInstance (registerVolume (registerVolume reg name f) name g) name
      = Except.ok (g ()) := by
  unfold createInstance lookupCtor registerVolume
  rw [List.find?_cons_of_pos _ (by simp)]
  rfl

theorem inBounds_of_region (dims index count p : Vec3i)
    (hw : withinExtents dims index count = true)
    (hp : regionContains index count p = true) :
    inBounds dims p = true := by
  simp only [withinExtents, Bool.and_eq_true, decide_eq_true_eq] at hw
  simp only [regionContains, Bool.and_eq_true, decide_eq_true_eq] at hp
  simp only [inBounds, Bool.and_eq_true, decide_eq_true_eq]
  omega

theorem setRegion_preserves_shape (v : VolumeInstance) (src : Vec3i → Int)
    (index count : Vec3i) :
    (setRegion v src index count).2.dims = v.dims ∧
    (setRegion v src index count).2.typeName = v.typeName ∧
    (setRegion v src index count).2.state = v.state := by
  unfold setRegion
  by_cases h : withinExtents v.dims index count = true
  · rw [if_pos h]
    exact ⟨rfl, rfl, rfl⟩
  · rw [if_neg h]
    exact ⟨rfl, rfl, rfl⟩

theorem sampleAt_setRegion_inside (v : VolumeInstance) (src : Vec3i → Int)
    (index count p : Vec3i)
    (hw : withinExtents v.dims index count = true)
    (hp : regionContains index count p = true) :
    sampleAt (setRegion v src index count).2 p = src (Vec3i.sub p index) := by
  unfold setRegion
  rw [if_pos hw]
  unfold sampleAt
  rw [if_pos (inBounds_of_region v.dims index count p hw hp)]
  simp only
  rw [if_pos hp]

theorem sampleAt_commit (v : VolumeInstance) (p : Vec3i) :
    sampleAt (commit v) p = sampleAt v p := by
  unfold sampleAt
  rw [(commit_preserves_storage v).1, (commit_preserves_storage v).2]

/-- C3: the write–commit–sample round trip: a `setRegion` write within the
declared extents, followed by `commit`, followed by a sample query at a
voxel-center world point inside the written region, returns the value that
was written into that slot. -/
theorem setRegion_commit_sample_roundtrip (v : VolumeInstance) (src : Vec3i → Int)
    (index count p : Vec3i)
    (hw : withinExtents v.dims index count = true)
    (hp : regionContains index count p = true) :
    sampleAt (commit (setRegion v src index count).2) p = src (Vec3i.sub p index) := by
  rw [sampleAt_commit]
  exact sampleAt_setRegion_inside v src index count p hw hp

theorem setRegion_commit_sample_roundtrip_witness :
    sampleAt (commit (setRegion (demoVol "testgrid") (fun _ => 1) ⟨1, 1, 1⟩ ⟨2, 2, 2⟩).2)
      ⟨1, 1, 1⟩ = 1 :=
  setRegion_commit_sample_roundtrip (demoVol "testgrid") (fun _ => 1)
    ⟨1, 1, 1⟩ ⟨2, 2, 2⟩ ⟨1, 1, 1⟩ (by decide) (by decide)

/-- C4: a `computeSamples` batch is total: the result has one slot per
requested point, an out-of-bounds point's slot holds the well-defined
`sentinel` rather than failing the batch, and an in-bounds point's slot
holds its sampled voxel value. -/
theorem computeSamples_batch_tolerates_oob (v : VolumeInstance)
    (points : List Vec3i) (i : Nat) (p : Vec3i) (hp : points.get? i = some p) :
    (computeSamples v points).length = points.length ∧
    (computeSamples v points).get? i
      = some (if inBounds v.dims p then v.voxels p else sentinel) := by
  constructor
  · simp [computeSamples]
  · unfold computeSamples
    rw [List.get?_map, hp]
    rfl

theorem computeSamples_batch_tolerates_oob_witness :
    ((computeSamples (demoVol "testgrid") [⟨0, 0, 0⟩, ⟨9, 9, 9⟩]).length = 2 ∧
      (computeSamples (demoVol "testgrid") [⟨0, 0, 0⟩, ⟨9, 9, 9⟩]).get? 1
        = some sentinel) ∧
    (computeSamples (demoVol "testgrid") [⟨0, 0, 0⟩, ⟨9, 9, 9⟩]).get? 0
      = some ((demoVol "testgrid").voxels ⟨0, 0, 0⟩) := by
  have hoob := computeSamples_batch_tolerates_oob (demoVol "testgrid")
    [⟨0, 0, 0⟩, ⟨9, 9, 9⟩] 1 ⟨9, 9, 9⟩ rfl
  have hin := computeSamples_batch_tolerates_oob (demoVol "testgrid")
    [⟨0, 0, 0⟩, ⟨9, 9, 9⟩] 0 ⟨0, 0, 0⟩ rfl
  refine ⟨⟨hoob.1, ?_⟩, ?_⟩
  · rw [hoob.2]
    rfl
  · rw [hin.2]
    rfl

/-- C5: `setRegion` communicates its outcome through the returned indicator
(non-zero on success, zero on failure) as a total function rather than by
throwing, and a failing call leaves the volume untouched, so a later write
proceeds exactly as if the failed call had never happened. -/
theorem setRegion_failure_is_reported_and_isolated (v : VolumeInstance)
    (src src2 : Vec3i → Int) (index count index2 count2 : Vec3i) :
    (withinExtents v.dims index count = true →
      (setRegion v src index count).1 ≠ 0) ∧
    (withinExtents v.dims index count = false →
      (setRegion v src index count).1 = 0 ∧
      (setRegion v src index count).2 = v ∧
      setRegion (setRegion v src index count).2 src2 index2 count2
        = setRegion v src2 index2 count2) := by
  constructor
  · intro h
    unfold setRegion
    rw [if_pos h]
    simp
  · intro h
    have hcond : ¬ withinExtents v.dims index count = true := by simp [h]
    have hstate : (setRegion v src index count).2 = v := by
      unfold setRegion
      rw [if_neg hcond]
    refine ⟨?_, hstate, by rw [hstate]⟩
    unfold setRegion
    rw [if_neg hcond]

theorem setRegion_failure_is_reported_and_isolated_witness :
    ((setRegion (demoVol "testgrid") (fun _ => 7) ⟨1, 1, 1⟩ ⟨2, 2, 2⟩).1 ≠ 0) ∧
    ((setRegion (demoVol "testgrid") (fun _ => 7) ⟨3, 3, 3⟩ ⟨2, 2, 2⟩).1 = 0 ∧
      (setRegion (demoVol "testgrid") (fun _ => 7) ⟨3, 3, 3⟩ ⟨2, 2, 2⟩).2
        = demoVol "testgrid") := by
  have hok := (setRegion_failure_is_reported_and_isolated (demoVol "testgrid")
    (fun _ => 7) (fun _ => 7) ⟨1, 1, 1⟩ ⟨2, 2, 2⟩ ⟨1, 1, 1⟩ ⟨2, 2, 2⟩).1 (by decide)
  have hfail := (setRegion_failure_is_reported_and_isolated (demoVol "testgrid")
    (fun _ => 7) (fun _ => 7) ⟨3, 3, 3⟩ ⟨2, 2, 2⟩ ⟨1, 1, 1⟩ ⟨2, 2, 2⟩).2 (by decide)
  exact ⟨hok, hfail.1, hfail.2.1⟩

/-- C9: when two `setRegion` calls cover exactly the same in-extents region,
the value observed after `commit` at every voxel of the region is the one
from the last write, whatever the first write stored there. -/
theorem overlapping_writes_last_wins (v : VolumeInstance) (s1 s2 : Vec3i → Int)
    (index count p : Vec3i)
    (hw : withinExtents v.dims index count = true)
    (hp : regionContains index count p = true) :
    sampleAt (commit (setRegion (setRegion v s1 index count).2 s2 index count).2) p
      = s2 (Vec3i.sub p index) := by
  rw [sampleAt_commit]
  have hdims := (setRegion_preserves_shape v s1 index count).1
  exact sampleAt_setRegion_inside (setRegion v s1 index count).2 s2 index count p
    (by rw [hdims]; exact hw) hp

theorem overlapping_writes_last_wins_witness :
    sampleAt (commit (setRegion
        (setRegion (demoVol "testgrid") (fun _ => 3) ⟨1, 1, 1⟩ ⟨2, 2, 2⟩).2
        (fun _ => 9) ⟨1, 1, 1⟩ ⟨2, 2, 2⟩).2) ⟨2, 2, 2⟩ = 9 :=
  overlapping_writes_last_wins (demoVol "testgrid") (fun _ => 3) (fun _ => 9)
    ⟨1, 1, 1⟩ ⟨2, 2, 2⟩ ⟨2, 2, 2⟩ (by decide) (by decide)

/-- C6: at query time, a piece with no local data resolves to a non-empty
owner set; a piece with absent local data and an empty owner set is the
fatal *Inconsistency* failure — the query reports the error and never
silently produces sampled data for it. -/
theorem piece_without_data_has_owners_or_fails (p : DataParallelPiece) :
    (pieceWellFormed p → queryPiece p ≠ Except.error PieceError.inconsistency) ∧
    (p.actualData = none → p.owner = [] →
      queryPiece p = Except.error PieceError.inconsistency) ∧
    (p.actualData = none → ∀ os,
      queryPiece p = Except.ok (PieceQueryResult.remoteFetch os) → os ≠ []) := by
  obtain ⟨b, par, dat, own⟩ := p
  cases dat with
  | some v =>
    refine ⟨?_, ?_, ?_⟩
    · intro _ hcon
      exact nomatch hcon
    · intro hnone
      exact nomatch hnone
    · intro hnone
      exact nomatch hnone
  | none =>
    cases own with
    | nil =>
      refine ⟨?_, ?_, ?_⟩
      · intro hwf
        exact absurd rfl (hwf rfl)
      · intro _ _
        rfl
      · intro _ os hos
        exact nomatch hos
    | cons o os =>
      refine ⟨?_, ?_, ?_⟩
      · intro _ hcon
        exact nomatch hcon
      · intro _ hcon
        exact nomatch hcon
      · intro _ os2 hos2
        have hq : queryPiece ⟨b, par, none, o :: os⟩
            = Except.ok (PieceQueryResult.remoteFetch (o :: os)) := rfl
        rw [hq] at hos2
        injection hos2 with h1
        injection h1 with h2
        subst h2
        intro hcon
        exact nomatch hcon

theorem piece_without_data_has_owners_or_fails_witness :
    queryPiece ⟨⟨⟨0, 0, 0⟩, ⟨4, 4, 4⟩⟩, 0, none, []⟩
      = Except.error PieceError.inconsistency ∧
    queryPiece ⟨⟨⟨0, 0, 0⟩, ⟨4, 4, 4⟩⟩, 0, none, [⟨1, 42⟩]⟩
      ≠ Except.error PieceError.inconsistency := by
  constructor
  · exact (piece_without_data_has_owners_or_fails
      ⟨⟨⟨0, 0, 0⟩, ⟨4, 4, 4⟩⟩, 0, none, []⟩).2.1 rfl rfl
  · exact (piece_without_data_has_owners_or_fails
      ⟨⟨⟨0, 0, 0⟩, ⟨4, 4, 4⟩⟩, 0, none, [⟨1, 42⟩]⟩).1
      (fun _ hcon => nomatch hcon)

/-- C8: once a volume is committed, `computeSamples` is read-only: the batch
loop returns the instance state exactly as it received it (every field
unchanged), and its only output is the list of sample results. -/
theorem computeSamples_read_only_once_committed (v : VolumeInstance)
    (points : List Vec3i) (h : v.state ≠ CommitState.uncommitted) :
    (computeSamplesSt v points).2 = v ∧
    (computeSamplesSt v points).1 = computeSamples v points := by
  induction points with
  | nil => exact ⟨rfl, rfl⟩
  | cons p ps ih =>
    refine ⟨ih.1, ?_⟩
    have hstep : (computeSamplesSt v (p :: ps)).1
        = sampleAt v p :: (computeSamplesSt v ps).1 := rfl
    rw [hstep, ih.2]
    rfl

theorem computeSamples_read_only_once_committed_witness :
    (computeSamplesSt (commit (demoVol "testgrid")) [⟨0, 0, 0⟩, ⟨9, 9, 9⟩]).2
      = commit (demoVol "testgrid") ∧
    (computeSamplesSt (commit (demoVol "testgrid")) [⟨0, 0, 0⟩, ⟨9, 9, 9⟩]).1
      = computeSamples (commit (demoVol "testgrid")) [⟨0, 0, 0⟩, ⟨9, 9, 9⟩] :=
  computeSamples_read_only_once_committed (commit (demoVol "testgrid"))
    [⟨0, 0, 0⟩, ⟨9, 9, 9⟩] (fun hcon => nomatch hcon)

/-- C10: a concrete volume subtype must supply `setRegion` (it is pure
virtual, so the abstract base alone cannot be instantiated), and dispatch of
`setRegion` always reaches that subtype-supplied implementation; `commit`,
`computeSamples`, `updateEditableParameters`, `isDataDistributed`,
`toString` and `finish` fall back to the base-class bodies whenever the
subtype does not override them. -/
theorem dispatch_reaches_subclass_setRegion (s : VolumeSubclass) :
    dispatchSetRegion s = s.setRegionImpl ∧
    (s.commitImpl = none → dispatchCommit s = commit) ∧
    (s.computeSamplesImpl = none → dispatchComputeSamples s = computeSamples) ∧
    (s.updateEditableParametersImpl = none →
      dispatchUpdateEditableParameters s = updateEditableParameters) ∧
    (s.isDataDistributedImpl = none →
      dispatchIsDataDistributed s = baseIsDataDistributed) ∧
    (s.toStringImpl = none → dispatchToString s = baseToString) ∧
    (s.finishImpl = none → dispatchFinish s = finish) := by
  refine ⟨rfl, ?_, ?_, ?_, ?_, ?_, ?_⟩ <;>
    intro h <;>
    simp [dispatchCommit, dispatchComputeSamples, dispatchUpdateEditableParameters,
      dispatchIsDataDistributed, dispatchToString, dispatchFinish, h]

theorem dispatch_reaches_subclass_setRegion_witness :
    dispatchSetRegion ⟨setRegion, none, none, none, none, none, none⟩ = setRegion ∧
    dispatchCommit ⟨setRegion, none, none, none, none, none, none⟩ = commit ∧
    dispatchIsDataDistributed ⟨setRegion, none, none, none, none, none, none⟩
      = baseIsDataDistributed := by
  have h := dispatch_reaches_subclass_setRegion
    ⟨setRegion, none, none, none, none, none, none⟩
  exact ⟨h.1, h.2.1 rfl, h.2.2.2.2.1 rfl⟩
